import Mathlib

/-!
Verification of DrakonixAnvil's lifecycle orchestrator and RCON protocol
client, as a shallow embedding of the Rust sources (`src/rcon.rs`,
`src/app.rs`, `src/server/mod.rs`) in Lean 4.

Bytes are modelled as `Nat` values below 256; machine integers are
modelled as `Nat`/`Int` with explicit reductions modulo `2^w` where the
Rust code can wrap or cast.  Fallible operations return `Except`.
Payload text is modelled as the raw byte list (the claims below only
concern ASCII payloads, for which Rust's `String::from_utf8_lossy` is
byte-for-byte the identity).
-/

namespace Drakonix

/-! ## RCON wire format (src/rcon.rs) -/

/-- Packet type constant `SERVERDATA_AUTH` from src/rcon.rs. -/
def SERVERDATA_AUTH : Int := 3

/-- Packet type constant `SERVERDATA_EXECCOMMAND` (shared with
`SERVERDATA_AUTH_RESPONSE`) from src/rcon.rs. -/
def SERVERDATA_EXECCOMMAND : Int := 2

/-- Packet type constant `SERVERDATA_RESPONSE_VALUE` from src/rcon.rs. -/
def SERVERDATA_RESPONSE_VALUE : Int := 0

/-- The error enum `RconError` from src/rcon.rs. -/
inductive RconError where
  | ConnectionFailed (msg : String)
  | AuthFailed
  | SendFailed (msg : String)
  | ReceiveFailed (msg : String)
  | InvalidResponse (msg : String)
  | Timeout
deriving DecidableEq, Repr

/-- Little-endian 4-byte encoding of a 32-bit value, as in
`i32::to_le_bytes` (the argument is the bit pattern, a `Nat` below `2^32`). -/
def le32 (n : Nat) : List Nat :=
  [n % 256, n / 256 % 256, n / 65536 % 256, n / 16777216 % 256]

/-- Little-endian decoding of a byte list (`i32::from_le_bytes` /
`u32` bit-pattern reading; 4-byte lists decode to the 32-bit value). -/
def dec32 (bs : List Nat) : Nat :=
  bs.foldr (fun b acc => b + 256 * acc) 0

/-- The bit pattern (`u32` as `Nat`) of an `i32`, as produced by
`to_le_bytes` on a possibly negative value. -/
def toU32 (i : Int) : Nat :=
  (i % 4294967296).toNat

/-- Reinterpret a 32-bit pattern as a signed `i32`
(`i32::from_le_bytes`). -/
def toI32 (n : Nat) : Int :=
  if n < 2147483648 then (n : Int) else (n : Int) - 4294967296

/-- The Rust cast `i32 as usize` applied to a 32-bit pattern:
sign-extension to 64 bits (`usize` on a 64-bit target). -/
def i32AsUsize (n : Nat) : Nat :=
  if n < 2147483648 then n else n + (18446744073709551616 - 4294967296)

/-- `RconClient::send_packet` (src/rcon.rs lines 157-192): the bytes
written to the stream for one frame.  `length = 4 + 4 + payload_len + 1 + 1`
counts id, type, payload, null terminator and padding byte. -/
def send_packet (request_id packet_type : Int) (payload : List Nat) : List Nat :=
  let length := 4 + 4 + payload.length + 1 + 1
  le32 (toU32 (Int.ofNat length)) ++ le32 (toU32 request_id) ++
    le32 (toU32 packet_type) ++ payload ++ [0, 0]

/-- `Read::read_exact` over a modelled byte stream: take `n` bytes and
return them with the remaining stream, or fail when the stream is short. -/
def readExact (n : Nat) (input : List Nat) : Option (List Nat × List Nat) :=
  if n ≤ input.length then some (input.take n, input.drop n) else none

/-- Drop every trailing zero byte, as `str::trim_end_matches` with
matcher `\x00` does on an ASCII payload. -/
def dropTrailingZeros (l : List Nat) : List Nat :=
  (l.reverse.dropWhile (fun b => b == 0)).reverse

/-- `RconClient::receive_packet` (src/rcon.rs lines 195-246) over a
modelled input stream.  Reads the 4-byte length, validates
`10 ≤ length ≤ 4096` (the declared `i32` length is cast to `usize`,
i.e. sign-extended), then reads exactly `length` body bytes and parses
request id, packet type and payload (bytes 8 .. length-2, with trailing
null bytes stripped).  On success also returns the unconsumed remainder
of the stream.  A short stream is reported as `ReceiveFailed` (the Rust
code distinguishes a timeout kind on the length read; the stream model
has no timeouts). -/
def receive_packet (input : List Nat) :
    Except RconError ((Int × Int × List Nat) × List Nat) :=
  match readExact 4 input with
  | none => .error (.ReceiveFailed "Failed to read length")
  | some (lenBuf, rest) =>
    let length := i32AsUsize (dec32 lenBuf)
    if length < 10 then
      .error (.InvalidResponse s!"Packet too small: {length}")
    else if length > 4096 then
      .error (.InvalidResponse s!"Packet too large: {length}")
    else
      match readExact length rest with
      | none => .error (.ReceiveFailed "Failed to read body")
      | some (buf, rest2) =>
        let request_id := toI32 (dec32 (buf.take 4))
        let packet_type := toI32 (dec32 ((buf.drop 4).take 4))
        let payloadBytes := (buf.drop 8).take (length - 10)
        .ok ((request_id, packet_type, dropTrailingZeros payloadBytes), rest2)

/-- The receive half of `RconClient::authenticate` (src/rcon.rs lines
95-128): read one reply; id `-1` fails authentication; a
`SERVERDATA_RESPONSE_VALUE` (type 0) reply is skipped and a second reply
is read, again checked for id `-1`; an id that merely mismatches the
request id only logs a warning.  Returns the unconsumed stream. -/
def authenticate_recv (input : List Nat) : Except RconError (List Nat) :=
  match receive_packet input with
  | .error e => .error e
  | .ok ((resp_id, resp_type, _payload), rest) =>
    if resp_id = -1 then .error .AuthFailed
    else if resp_type = SERVERDATA_RESPONSE_VALUE then
      match receive_packet rest with
      | .error e => .error e
      | .ok ((resp_id2, _resp_type2, _payload2), rest2) =>
        if resp_id2 = -1 then .error .AuthFailed else .ok rest2
    else .ok rest

/-- The receive half of `RconClient::command` (src/rcon.rs lines
131-154): read exactly one reply and return its payload; an unexpected
packet type only logs a warning; the reply's request id is not
inspected. -/
def command_recv (input : List Nat) : Except RconError (List Nat × List Nat) :=
  match receive_packet input with
  | .error e => .error e
  | .ok ((_resp_id, _resp_type, payload), rest) => .ok (payload, rest)

/-! ## Status model and instance table (src/server/mod.rs, src/app.rs) -/

/-- The `ServerStatus` enum from src/server/mod.rs. -/
inductive ServerStatus where
  | Stopped
  | Pulling
  | Starting
  | Initializing
  | Running
  | Stopping
  | Error (msg : String)
deriving DecidableEq, Repr

/-- The fields of `ServerConfig` (src/server/mod.rs) used by the
lifecycle orchestrator.  `port` is a `u16`, modelled as a `Nat` whose
arithmetic wraps modulo `2^16` where the Rust code can overflow.
Catalogue/metadata fields not read by the verified operations are
omitted. -/
structure ServerConfig where
  name : String
  port : Nat
  memory_mb : Nat
  java_args : List String
  rcon_password : String
deriving DecidableEq, Repr

/-- `ServerConfig::rcon_port` (src/server/mod.rs lines 237-241):
`self.port + 10` on `u16`, i.e. addition wrapping modulo `2^16`. -/
def ServerConfig.rcon_port (c : ServerConfig) : Nat :=
  (c.port + 10) % 65536

/-- The `ServerInstance` struct from src/server/mod.rs. -/
structure ServerInstance where
  config : ServerConfig
  container_id : Option String
  status : ServerStatus
deriving DecidableEq, Repr

/-- The transient-status reset applied to each loaded instance in
`DrakonixApp::new` (src/app.rs lines 111-129). -/
def resetTransient (s : ServerStatus) : ServerStatus :=
  match s with
  | .Starting | .Stopping | .Pulling | .Initializing => .Stopped
  | s => s

/-- The server-list normalisation performed by `DrakonixApp::new` on the
instances returned by `load_servers()`, before the `DrakonixApp` value
holding the table is constructed (so before any other logic can read
it). -/
def loadServersNormalized (loaded : List ServerInstance) : List ServerInstance :=
  loaded.map (fun srv => { srv with status := resetTransient srv.status })

/-- The active-status test of the port checker's internal scan
(`matches!(status, Running | Starting | Initializing)` in
`DrakonixApp::check_port_conflict`). -/
def isActiveStatus (s : ServerStatus) : Bool :=
  match s with
  | .Running | .Starting | .Initializing => true
  | _ => false

/-- The internal scan of `DrakonixApp::check_port_conflict` (src/app.rs
lines 189-199): the first instance with a different name, the same
configured port and an active status, if any. -/
def internalPortConflict (servers : List ServerInstance) (port : Nat)
    (server_name : String) : Option ServerInstance :=
  servers.find? (fun s =>
    (s.config.name != server_name) && (s.config.port == port) &&
      isActiveStatus s.status)

/-- Outcome of the OS-level `TcpListener::bind` probe in
`check_port_conflict`; the bind is an external effect, so the checker is
parameterised over it. -/
inductive BindOutcome where
  | ok
  | addrInUse
  | permissionDenied
  | otherErr (msg : String)
deriving DecidableEq, Repr

/-- `DrakonixApp::check_port_conflict` (src/app.rs lines 189-231):
internal scan first, then the OS bind probe, each failure with its own
message.  `suggested` stands for `find_available_port(port)`, another OS
probe. -/
def check_port_conflict (servers : List ServerInstance) (port : Nat)
    (server_name : String) (bind : BindOutcome) (suggested : Option Nat) :
    Option String :=
  match internalPortConflict servers port server_name with
  | some s =>
    some s!"Port {port} is already used by running server {s.config.name}"
  | none =>
    match bind with
    | .ok => none
    | .addrInUse =>
      let sugg := suggested.getD (port + 1)
      some s!"Port {port} is already in use by another application. Try port {sugg} instead."
    | .permissionDenied =>
      some s!"Permission denied for port {port}. Ports below 1024 require root privileges."
    | .otherErr e => some s!"Cannot bind to port {port}: {e}"

/-- Update the first element satisfying `p`, leaving the rest unchanged:
the list form of Rust's `iter_mut().find(p)` followed by a mutation. -/
def updateFirst (p : α → Bool) (f : α → α) : List α → List α
  | [] => []
  | x :: xs => if p x then f x :: xs else x :: updateFirst p f xs

/-- The `TaskMessage::ServerStatus` arm of
`DrakonixApp::process_task_messages` (src/app.rs lines 764-785) as it
acts on the instance table: the first instance named `name` gets the new
status, and its container handle is overwritten only when the message
carries one. -/
def applyServerStatus (servers : List ServerInstance) (name : String)
    (status : ServerStatus) (container_id : Option String) :
    List ServerInstance :=
  updateFirst (fun s => s.config.name == name)
    (fun s =>
      { s with
        status := status
        container_id :=
          match container_id with
          | some cid => some cid
          | none => s.container_id })
    servers

/-- Result of the synchronous prefix of `DrakonixApp::start_server`
(src/app.rs lines 297-352): either a validation rejection (no background
task spawned), a data-directory I/O failure, or a spawned background
task with the transient status that was set. -/
inductive StartOutcome where
  | rejectedNoDocker
  | rejectedUnknown
  | rejectedPortConflict (msg : String)
  | failedDataDir
  | spawnedPulling
  | spawnedStarting
deriving DecidableEq, Repr

/-- `true` exactly on the three validation rejections of `start_server`. -/
def StartOutcome.isRejected : StartOutcome → Bool
  | .rejectedNoDocker | .rejectedUnknown | .rejectedPortConflict _ => true
  | _ => false

/-- The synchronous prefix of `DrakonixApp::start_server` (src/app.rs
lines 297-352), up to and including the status write that precedes the
`runtime.spawn`.  External effects are parameters: `dockerPresent`
models `self.docker.is_some()`, `bind`/`suggested` the OS port probe,
`mkdirOk` the result of `std::fs::create_dir_all`.  Returns the new
instance table and the outcome. -/
def startServerSync (dockerPresent : Bool) (servers : List ServerInstance)
    (name : String) (bind : BindOutcome) (suggested : Option Nat)
    (mkdirOk : Bool) : List ServerInstance × StartOutcome :=
  if dockerPresent = false then (servers, .rejectedNoDocker)
  else
    match servers.find? (fun s => s.config.name == name) with
    | none => (servers, .rejectedUnknown)
    | some srv =>
      match check_port_conflict servers srv.config.port name bind suggested with
      | some msg => (servers, .rejectedPortConflict msg)
      | none =>
        if mkdirOk = false then
          (updateFirst (fun s => s.config.name == name)
            (fun s => { s with status := .Error "Failed to create data dir" })
            servers, .failedDataDir)
        else if srv.container_id.isNone then
          (updateFirst (fun s => s.config.name == name)
            (fun s => { s with status := .Pulling }) servers, .spawnedPulling)
        else
          (updateFirst (fun s => s.config.name == name)
            (fun s => { s with status := .Starting }) servers, .spawnedStarting)

/-- Result of the synchronous prefix of `DrakonixApp::stop_server`
(src/app.rs lines 454-480). -/
inductive StopOutcome where
  | rejectedNoDocker
  | rejectedUnknown
  | rejectedNoContainer
  | spawnedStop (container_id : String)
deriving DecidableEq, Repr

/-- `true` exactly on the validation rejections of `stop_server`. -/
def StopOutcome.isRejected : StopOutcome → Bool
  | .spawnedStop _ => false
  | _ => true

/-- The synchronous prefix of `DrakonixApp::stop_server` (src/app.rs
lines 454-480), up to and including the `Stopping` status write that
precedes the `runtime.spawn`. -/
def stopServerSync (dockerPresent : Bool) (servers : List ServerInstance)
    (name : String) : List ServerInstance × StopOutcome :=
  if dockerPresent = false then (servers, .rejectedNoDocker)
  else
    match servers.find? (fun s => s.config.name == name) with
    | none => (servers, .rejectedUnknown)
    | some srv =>
      match srv.container_id with
      | none => (servers, .rejectedNoContainer)
      | some cid =>
        (updateFirst (fun s => s.config.name == name)
          (fun s => { s with status := .Stopping }) servers,
         .spawnedStop cid)

/-! ## Readiness poller (src/app.rs, `DrakonixApp::poll_mc_server_ready`) -/

/-- Result of one `docker.is_container_running` call, per attempt. -/
inductive LiveRes where
  | running
  | exited
  | commErr (msg : String)
deriving DecidableEq, Repr

/-- Result of one `client.ping` application-layer probe.  A successful
ping with `status.online` carries the diagnostic lines the poller then
logs (version, MOTD, players, ...). -/
inductive PingRes where
  | online (diags : List String)
  | offline
  | connFail
deriving DecidableEq, Repr

/-- The log line emitted when the poller exhausts all attempts
(src/app.rs, end of `poll_mc_server_ready`). -/
def timeoutLog (name : String) : String :=
  s!"Server {name} still initializing after 10 minutes. Check container logs for progress."

/-- An observable action of the poller: a liveness check, an
application-layer probe, a `TaskMessage::Log`, or a
`TaskMessage::ServerStatus` (always sent with the container handle). -/
inductive PollEvent where
  | liveness (attempt : Nat)
  | probe (attempt : Nat)
  | log (s : String)
  | statusMsg (status : ServerStatus) (container_id : Option String)
deriving DecidableEq, Repr

/-- `true` exactly on `statusMsg` events. -/
def PollEvent.isStatus : PollEvent → Bool
  | .statusMsg _ _ => true
  | _ => false

/-- One iteration plus the rest of `poll_mc_server_ready`s loop
(src/app.rs lines 855-991), as the trace of events it emits, starting at
`attempt` with `fuel` iterations left.  Each iteration: liveness check
(`exited` emits a log and the `Error("Container exited unexpectedly")`
status and returns; a communication error only logs); then the ping
probe (`online` logs, emits `Running` and returns; otherwise a log
throttled to every sixth attempt, then the next iteration).  Exhausted
fuel is the post-loop path: a single log, no status message. -/
def pollFrom (live : Nat → LiveRes) (ping : Nat → PingRes) (name : String)
    (container_id : String) : Nat → Nat → List PollEvent
  | _, 0 => [.log (timeoutLog name)]
  | attempt, fuel + 1 =>
    let afterLive : List PollEvent :=
      PollEvent.probe attempt ::
        match ping attempt with
        | .online diags =>
          PollEvent.log s!"Server {name} is now accepting connections" ::
            (diags.map PollEvent.log ++
              [PollEvent.statusMsg .Running (some container_id)])
        | .offline =>
          (if attempt % 6 = 0 then
            [PollEvent.log s!"Server {name} not ready yet (attempt {attempt}/120)"]
          else []) ++ pollFrom live ping name container_id (attempt + 1) fuel
        | .connFail =>
          (if attempt % 6 = 0 then
            [PollEvent.log s!"Waiting for {name} to initialize (attempt {attempt}/120)"]
          else []) ++ pollFrom live ping name container_id (attempt + 1) fuel
    match live attempt with
    | .exited =>
      [.liveness attempt,
       .log s!"Container for {name} has stopped. Check container logs for errors.",
       .statusMsg (.Error "Container exited unexpectedly") (some container_id)]
    | .running => PollEvent.liveness attempt :: afterLive
    | .commErr e =>
      PollEvent.liveness attempt ::
        PollEvent.log s!"Failed to check container status: {e}" :: afterLive

/-- `DrakonixApp::poll_mc_server_ready`: 120 attempts starting at 1. -/
def poll_mc_server_ready (live : Nat → LiveRes) (ping : Nat → PingRes)
    (name : String) (container_id : String) : List PollEvent :=
  pollFrom live ping name container_id 1 120

/-- Index of the first element satisfying `p` (the position found by
Rust's `iter().position(p)` / `iter_mut().find(p)`). -/
def firstIdx? (p : α → Bool) : List α → Option Nat
  | [] => none
  | x :: xs => if p x then some 0 else (firstIdx? p xs).map (· + 1)

/-! ## Helper lemmas -/

theorem isActiveStatus_iff (s : ServerStatus) :
    isActiveStatus s = true ↔
      s = .Running ∨ s = .Starting ∨ s = .Initializing := by
  cases s <;> simp [isActiveStatus]

theorem updateFirst_getElem? (p : α → Bool) (f : α → α) (l : List α) (i : Nat) :
    (updateFirst p f l)[i]? =
      if firstIdx? p l = some i then l[i]?.map f else l[i]? := by
  induction l generalizing i with
  | nil => simp [updateFirst, firstIdx?]
  | cons x xs ih =>
    by_cases hp : p x
    · cases i with
      | zero => simp [updateFirst, firstIdx?, hp]
      | succ n => simp [updateFirst, firstIdx?, hp]
    · cases i with
      | zero => simp [updateFirst, firstIdx?, hp]
      | succ n =>
        simp only [updateFirst, hp, Bool.false_eq_true, if_false, firstIdx?,
          List.getElem?_cons_succ, ih n]
        by_cases h : firstIdx? p xs = some n
        · simp [h]
        · have hmap : ¬ (firstIdx? p xs).map (· + 1) = some (n + 1) := by
            intro hc
            rcases Option.map_eq_some'.mp hc with ⟨m, hm, hmn⟩
            have : m = n := by omega
            exact h (this ▸ hm)
          simp [h, hmap]

/-! ## Claim C5 -/

/-- C5: on process restart, every instance loaded from persisted storage
in a transient state (`Starting`, `Pulling`, `Initializing`, `Stopping`)
has its status set to `Stopped` in the table `DrakonixApp::new` builds,
before any other logic uses it, while instances loaded in `Stopped`,
`Running` or `Error` keep their stored status; config and container
handle are untouched. -/
theorem restart_resets_transient_statuses (loaded : List ServerInstance) (i : Nat) :
    (loadServersNormalized loaded)[i]? =
      loaded[i]?.map (fun srv =>
        { srv with status :=
            if srv.status = .Starting ∨ srv.status = .Pulling ∨
               srv.status = .Initializing ∨ srv.status = .Stopping
            then ServerStatus.Stopped else srv.status }) := by
  unfold loadServersNormalized
  rw [List.getElem?_map]
  cases h : loaded[i]? with
  | none => rfl
  | some srv =>
    simp only [Option.map_some']
    congr 1
    obtain ⟨cfg, cid, st⟩ := srv
    cases st <;> simp [resetTransient]

/-! ## Claim C7 -/

/-- C7: the port checker's internal scan reports a conflict for a
candidate port and requesting instance name if and only if some instance
in the table with a different name is configured for the same port and
has status `Running`, `Starting` or `Initializing`; instances on the
same port in any other status are not internal conflicts. -/
theorem port_conflict_internal_scan (servers : List ServerInstance)
    (port : Nat) (name : String) :
    (internalPortConflict servers port name).isSome ↔
      ∃ s ∈ servers, s.config.name ≠ name ∧ s.config.port = port ∧
        (s.status = .Running ∨ s.status = .Starting ∨ s.status = .Initializing) := by
  unfold internalPortConflict
  rw [List.find?_isSome]
  constructor
  · rintro ⟨s, hs, hpred⟩
    simp only [Bool.and_eq_true, bne_iff_ne, beq_iff_eq, isActiveStatus_iff] at hpred
    exact ⟨s, hs, hpred.1.1, hpred.1.2, hpred.2⟩
  · rintro ⟨s, hs, h1, h2, h3⟩
    refine ⟨s, hs, ?_⟩
    simp only [Bool.and_eq_true, bne_iff_ne, beq_iff_eq, isActiveStatus_iff]
    exact ⟨⟨h1, h2⟩, h3⟩

/-! ## Claim C9 -/

/-- The configuration used in the C9 counterexample: a valid `u16` game
port near the top of the range. -/
def overflowConfig : ServerConfig :=
  { name := "overflow", port := 65530, memory_mb := 4096, java_args := [],
    rcon_password := "pw" }

/-- C9 counterexample: for the valid configured port 65530 the `u16`
addition in `ServerConfig::rcon_port` wraps (in a release build; a debug
build panics), so the RCON port is 4, not 65540 = port + 10. -/
theorem rcon_port_overflow_counterexample :
    overflowConfig.rcon_port = 4 ∧
      overflowConfig.rcon_port ≠ overflowConfig.port + 10 := by
  decide

/-- C9 (amended): for every instance whose configured game port is at
most 65525, the RCON port equals the configured port plus 10 (above
that, the `u16` addition wraps modulo 65536); it is recomputed from the
configured port alone on each call — two configs with the same port
always yield the same RCON port — and no independent RCON-port field is
stored. -/
theorem rcon_port_derived (c : ServerConfig) (h : c.port + 10 < 65536) :
    c.rcon_port = c.port + 10 ∧
      ∀ c2 : ServerConfig, c2.port = c.port → c2.rcon_port = c.rcon_port := by
  constructor
  · show (c.port + 10) % 65536 = c.port + 10
    exact Nat.mod_eq_of_lt h
  · intro c2 h2
    show (c2.port + 10) % 65536 = (c.port + 10) % 65536
    rw [h2]

/-- The configuration used in the C9 witness. -/
def defaultPortConfig : ServerConfig :=
  { name := "w9", port := 25565, memory_mb := 4096, java_args := [],
    rcon_password := "pw" }

/-- Witness for C9 at the default game port 25565. -/
theorem rcon_port_derived_witness :
    defaultPortConfig.rcon_port = defaultPortConfig.port + 10 ∧
      ∀ c2 : ServerConfig, c2.port = defaultPortConfig.port →
        c2.rcon_port = defaultPortConfig.rcon_port :=
  rcon_port_derived defaultPortConfig (by decide)

/-! ## Claim C10 -/

/-- C10: applying a status-transition message never clears a stored
container handle: with `container_id = none` in the message every
instance's `container_id` field (including the named instance's) is
unchanged, and with `some cid` exactly the first instance named `name`
is updated — its status overwritten and its handle set to `cid` — while
every other position of the table is untouched. -/
theorem reconcile_preserves_container_handle (servers : List ServerInstance)
    (name : String) (status : ServerStatus) (i : Nat) :
    ((applyServerStatus servers name status none)[i]?).map
        (fun s => s.container_id) =
      (servers[i]?).map (fun s => s.container_id) ∧
    ∀ cid : String,
      (applyServerStatus servers name status (some cid))[i]? =
        if firstIdx? (fun s => s.config.name == name) servers = some i then
          (servers[i]?).map
            (fun s => { s with status := status, container_id := some cid })
        else servers[i]? := by
  constructor
  · unfold applyServerStatus
    rw [updateFirst_getElem?]
    by_cases h : firstIdx? (fun s => s.config.name == name) servers = some i
    · simp only [h, if_true]
      cases servers[i]? <;> simp
    · simp [h]
  · intro cid
    unfold applyServerStatus
    rw [updateFirst_getElem?]

/-! ## Claim C6 -/

/-- C6: every Start or Stop request that fails validation (missing
external-service handle, unknown instance name, port conflict for Start;
missing container handle for Stop) is rejected synchronously — the
returned outcome is a rejection, never a spawned background task — and
any rejected request leaves the instance table (in particular every
instance's status) unchanged. -/
theorem validation_rejected_synchronously (dockerPresent : Bool)
    (servers : List ServerInstance) (name : String) (bind : BindOutcome)
    (suggested : Option Nat) (mkdirOk : Bool) :
    (dockerPresent = false →
        startServerSync dockerPresent servers name bind suggested mkdirOk
            = (servers, .rejectedNoDocker) ∧
        stopServerSync dockerPresent servers name = (servers, .rejectedNoDocker)) ∧
    (servers.find? (fun s => s.config.name == name) = none →
        startServerSync true servers name bind suggested mkdirOk
            = (servers, .rejectedUnknown) ∧
        stopServerSync true servers name = (servers, .rejectedUnknown)) ∧
    (∀ srv msg, servers.find? (fun s => s.config.name == name) = some srv →
        check_port_conflict servers srv.config.port name bind suggested = some msg →
        startServerSync true servers name bind suggested mkdirOk
            = (servers, .rejectedPortConflict msg)) ∧
    (∀ srv, servers.find? (fun s => s.config.name == name) = some srv →
        srv.container_id = none →
        stopServerSync true servers name = (servers, .rejectedNoContainer)) ∧
    ((startServerSync dockerPresent servers name bind suggested mkdirOk).2.isRejected →
        (startServerSync dockerPresent servers name bind suggested mkdirOk).1 = servers) ∧
    ((stopServerSync dockerPresent servers name).2.isRejected →
        (stopServerSync dockerPresent servers name).1 = servers) := by
  refine ⟨?_, ?_, ?_, ?_, ?_, ?_⟩
  · intro h
    subst h
    exact ⟨rfl, rfl⟩
  · intro h
    constructor
    · simp [startServerSync, h]
    · simp [stopServerSync, h]
  · intro srv msg hfind hconf
    simp [startServerSync, hfind, hconf]
  · intro srv hfind hcid
    simp [stopServerSync, hfind, hcid]
  · intro h
    cases dockerPresent with
    | false => rfl
    | true =>
      simp only [startServerSync] at h ⊢
      cases hfind : servers.find? (fun s => s.config.name == name) with
      | none => simp
      | some srv =>
        simp only [hfind] at h ⊢
        cases hconf : check_port_conflict servers srv.config.port name bind suggested with
        | some msg => simp
        | none =>
          simp only [hconf] at h ⊢
          cases mkdirOk with
          | false => simp [StartOutcome.isRejected] at h
          | true =>
            cases hcid : srv.container_id.isNone <;>
              simp [hcid, StartOutcome.isRejected] at h
  · intro h
    cases dockerPresent with
    | false => rfl
    | true =>
      simp only [stopServerSync] at h ⊢
      cases hfind : servers.find? (fun s => s.config.name == name) with
      | none => simp
      | some srv =>
        simp only [hfind] at h ⊢
        cases hcid : srv.container_id with
        | none => simp
        | some cid => simp [hcid, StopOutcome.isRejected] at h

/-- A stopped instance used in the C6 witness. -/
def stoppedInstance : ServerInstance :=
  { config := { name := "srv", port := 25565, memory_mb := 4096,
                java_args := [], rcon_password := "pw" }
    container_id := none
    status := .Stopped }

/-- A running instance on the same port used in the C6 witness. -/
def runningInstance : ServerInstance :=
  { config := { name := "other", port := 25565, memory_mb := 4096,
                java_args := [], rcon_password := "pw" }
    container_id := some "cid-other"
    status := .Running }

/-- Witness for C6: a missing Docker handle, an unknown name, a port
conflict against a running instance, and a stop without a container
handle are each rejected with the table unchanged. -/
theorem validation_rejected_witness :
    (startServerSync false [stoppedInstance] "srv" .ok none true
        = ([stoppedInstance], .rejectedNoDocker) ∧
      stopServerSync false [stoppedInstance] "srv"
        = ([stoppedInstance], .rejectedNoDocker)) ∧
    (startServerSync true [stoppedInstance] "ghost" .ok none true
        = ([stoppedInstance], .rejectedUnknown)) ∧
    (startServerSync true [stoppedInstance, runningInstance] "srv" .ok none true
        = ([stoppedInstance, runningInstance],
           .rejectedPortConflict
             "Port 25565 is already used by running server other")) ∧
    (stopServerSync true [stoppedInstance] "srv"
        = ([stoppedInstance], .rejectedNoContainer)) :=
  ⟨(validation_rejected_synchronously false [stoppedInstance] "srv" .ok none
      true).1 rfl,
   ((validation_rejected_synchronously true [stoppedInstance] "ghost" .ok none
      true).2.1 (by decide)).1,
   (validation_rejected_synchronously true [stoppedInstance, runningInstance]
      "srv" .ok none true).2.2.1 stoppedInstance
      "Port 25565 is already used by running server other" (by decide)
      (by decide),
   (validation_rejected_synchronously true [stoppedInstance] "srv" .ok none
      true).2.2.2.1 stoppedInstance (by decide) (by decide)⟩

/-! ## Claims C3 and C4: readiness poller -/

/-- When an attempt neither finds the container exited nor gets a
successful handshake, the iteration contributes only a liveness check, a
probe and possibly log lines, then continues with the next attempt. -/
theorem pollFrom_step_skip (live : Nat → LiveRes) (ping : Nat → PingRes)
    (name cid : String) (attempt f : Nat)
    (hl : live attempt ≠ .exited) (hp : ∀ d, ping attempt ≠ .online d) :
    ∃ pre, pollFrom live ping name cid attempt (f + 1)
        = pre ++ pollFrom live ping name cid (attempt + 1) f ∧
      ∀ e ∈ pre, e.isStatus = false ∧
        ∀ j, (e = PollEvent.probe j ∨ e = PollEvent.liveness j) → j = attempt := by
  cases hl' : live attempt with
  | exited => exact absurd hl' hl
  | running =>
    cases hp' : ping attempt with
    | online d => exact absurd hp' (hp d)
    | offline =>
      by_cases h6 : attempt % 6 = 0
      · exact ⟨[.liveness attempt, .probe attempt,
          .log s!"Server {name} not ready yet (attempt {attempt}/120)"],
          by simp [pollFrom, hl', hp', h6],
          by intro e he; simp only [List.mem_cons, List.not_mem_nil, or_false] at he; rcases he with rfl | rfl | rfl <;>
            simp_all [PollEvent.isStatus]⟩
      · exact ⟨[.liveness attempt, .probe attempt],
          by simp [pollFrom, hl', hp', h6],
          by intro e he; simp only [List.mem_cons, List.not_mem_nil, or_false] at he; rcases he with rfl | rfl <;>
            simp_all [PollEvent.isStatus]⟩
    | connFail =>
      by_cases h6 : attempt % 6 = 0
      · exact ⟨[.liveness attempt, .probe attempt,
          .log s!"Waiting for {name} to initialize (attempt {attempt}/120)"],
          by simp [pollFrom, hl', hp', h6],
          by intro e he; simp only [List.mem_cons, List.not_mem_nil, or_false] at he; rcases he with rfl | rfl | rfl <;>
            simp_all [PollEvent.isStatus]⟩
      · exact ⟨[.liveness attempt, .probe attempt],
          by simp [pollFrom, hl', hp', h6],
          by intro e he; simp only [List.mem_cons, List.not_mem_nil, or_false] at he; rcases he with rfl | rfl <;>
            simp_all [PollEvent.isStatus]⟩
  | commErr m =>
    cases hp' : ping attempt with
    | online d => exact absurd hp' (hp d)
    | offline =>
      by_cases h6 : attempt % 6 = 0
      · exact ⟨[.liveness attempt,
          .log s!"Failed to check container status: {m}", .probe attempt,
          .log s!"Server {name} not ready yet (attempt {attempt}/120)"],
          by simp [pollFrom, hl', hp', h6],
          by intro e he; simp only [List.mem_cons, List.not_mem_nil, or_false] at he; rcases he with rfl | rfl | rfl | rfl <;>
            simp_all [PollEvent.isStatus]⟩
      · exact ⟨[.liveness attempt,
          .log s!"Failed to check container status: {m}", .probe attempt],
          by simp [pollFrom, hl', hp', h6],
          by intro e he; simp only [List.mem_cons, List.not_mem_nil, or_false] at he; rcases he with rfl | rfl | rfl <;>
            simp_all [PollEvent.isStatus]⟩
    | connFail =>
      by_cases h6 : attempt % 6 = 0
      · exact ⟨[.liveness attempt,
          .log s!"Failed to check container status: {m}", .probe attempt,
          .log s!"Waiting for {name} to initialize (attempt {attempt}/120)"],
          by simp [pollFrom, hl', hp', h6],
          by intro e he; simp only [List.mem_cons, List.not_mem_nil, or_false] at he; rcases he with rfl | rfl | rfl | rfl <;>
            simp_all [PollEvent.isStatus]⟩
      · exact ⟨[.liveness attempt,
          .log s!"Failed to check container status: {m}", .probe attempt],
          by simp [pollFrom, hl', hp', h6],
          by intro e he; simp only [List.mem_cons, List.not_mem_nil, or_false] at he; rcases he with rfl | rfl | rfl <;>
            simp_all [PollEvent.isStatus]⟩

/-- Poller runs in which no attempt in the remaining window finds the
container exited or a successful handshake emit no status message and
end with the initialization-taking-long log line. -/
theorem pollFrom_exhausted (live : Nat → LiveRes) (ping : Nat → PingRes)
    (name cid : String) :
    ∀ (fuel attempt : Nat),
      (∀ j, attempt ≤ j → j < attempt + fuel →
        live j ≠ .exited ∧ ∀ d, ping j ≠ .online d) →
      (pollFrom live ping name cid attempt fuel).filter PollEvent.isStatus = []
        ∧ PollEvent.log (timeoutLog name)
            ∈ pollFrom live ping name cid attempt fuel := by
  intro fuel
  induction fuel with
  | zero =>
    intro attempt _
    exact ⟨by simp [pollFrom, PollEvent.isStatus], by simp [pollFrom]⟩
  | succ f ih =>
    intro attempt h
    have hat := h attempt le_rfl (by omega)
    obtain ⟨pre, heq, hpre⟩ :=
      pollFrom_step_skip live ping name cid attempt f hat.1 hat.2
    have hrec := ih (attempt + 1) (fun j ha hb => h j (by omega) (by omega))
    rw [heq]
    constructor
    · rw [List.filter_append, hrec.1, List.append_nil]
      exact List.filter_eq_nil_iff.mpr (fun e he => by simp [(hpre e he).1])
    · exact List.mem_append_right _ hrec.2

/-- From the first attempt at which the liveness check reports `exited`
(all earlier attempts neither exited nor handshook), the poller emits
the single `Error("Container exited unexpectedly")` status, probes only
strictly earlier attempts and checks liveness of no later attempt. -/
theorem pollFrom_exited_stops (live : Nat → LiveRes) (ping : Nat → PingRes)
    (name cid : String) (k : Nat) (hk : live k = .exited) :
    ∀ (fuel attempt : Nat), attempt ≤ k → k < attempt + fuel →
      (∀ j, attempt ≤ j → j < k → live j ≠ .exited ∧ ∀ d, ping j ≠ .online d) →
      (pollFrom live ping name cid attempt fuel).filter PollEvent.isStatus
          = [.statusMsg (.Error "Container exited unexpectedly") (some cid)] ∧
      (∀ j, PollEvent.probe j ∈ pollFrom live ping name cid attempt fuel → j < k) ∧
      (∀ j, PollEvent.liveness j ∈ pollFrom live ping name cid attempt fuel → j ≤ k) := by
  intro fuel
  induction fuel with
  | zero => intro attempt h1 h2 _; omega
  | succ f ih =>
    intro attempt h1 h2 hprev
    rcases eq_or_lt_of_le h1 with rfl | hak
    · refine ⟨?_, ?_, ?_⟩
      · simp [pollFrom, hk, PollEvent.isStatus]
      · intro j hj
        simp [pollFrom, hk] at hj
      · intro j hj
        simp [pollFrom, hk] at hj
        omega
    · have hat := hprev attempt le_rfl hak
      obtain ⟨pre, heq, hpre⟩ :=
        pollFrom_step_skip live ping name cid attempt f hat.1 hat.2
      have hrec := ih (attempt + 1) (by omega) (by omega)
        (fun j ha hb => hprev j (by omega) hb)
      rw [heq]
      refine ⟨?_, ?_, ?_⟩
      · rw [List.filter_append, hrec.1]
        have hnil : pre.filter PollEvent.isStatus = [] :=
          List.filter_eq_nil_iff.mpr (fun e he => by simp [(hpre e he).1])
        rw [hnil]
        rfl
      · intro j hj
        rcases List.mem_append.mp hj with hpj | hpj
        · have := (hpre _ hpj).2 j (Or.inl rfl)
          omega
        · exact hrec.2.1 j hpj
      · intro j hj
        rcases List.mem_append.mp hj with hpj | hpj
        · have := (hpre _ hpj).2 j (Or.inr rfl)
          omega
        · exact hrec.2.2 j hpj

/-- C3: when the liveness check reports the container not running at
some attempt `k` (each earlier attempt neither found it exited nor got a
successful handshake), the poller emits exactly one status message, the
`Error` with message "Container exited unexpectedly"; it performs no
application-layer probe at attempt `k` or later, and checks no attempt
after `k` (it stops polling). -/
theorem poller_exited_single_error (live : Nat → LiveRes)
    (ping : Nat → PingRes) (name cid : String) (k : Nat)
    (hk1 : 1 ≤ k) (hk2 : k ≤ 120) (hexit : live k = .exited)
    (hprev : ∀ j, 1 ≤ j → j < k →
      live j ≠ .exited ∧ ∀ d, ping j ≠ .online d) :
    (poll_mc_server_ready live ping name cid).filter PollEvent.isStatus
        = [.statusMsg (.Error "Container exited unexpectedly") (some cid)] ∧
    (∀ j, PollEvent.probe j ∈ poll_mc_server_ready live ping name cid → j < k) ∧
    (∀ j, PollEvent.liveness j ∈ poll_mc_server_ready live ping name cid → j ≤ k) :=
  pollFrom_exited_stops live ping name cid k hexit 120 1 hk1 (by omega) hprev

/-- Witness for C3: a liveness check that reports `exited` on the very
first attempt. -/
theorem poller_exited_single_error_witness :
    (poll_mc_server_ready (fun _ => .exited) (fun _ => .connFail) "ws" "wc").filter
        PollEvent.isStatus
        = [.statusMsg (.Error "Container exited unexpectedly") (some "wc")] ∧
    (∀ j, PollEvent.probe j
        ∈ poll_mc_server_ready (fun _ => .exited) (fun _ => .connFail) "ws" "wc" →
        j < 1) ∧
    (∀ j, PollEvent.liveness j
        ∈ poll_mc_server_ready (fun _ => .exited) (fun _ => .connFail) "ws" "wc" →
        j ≤ 1) :=
  poller_exited_single_error (fun _ => .exited) (fun _ => .connFail) "ws" "wc" 1
    le_rfl (by omega) rfl (fun j h1 h2 => absurd h2 (by omega))

/-- C4: when all 120 attempts pass without a successful handshake and
without the liveness check ever reporting the container exited, the
poller emits no status message at all — in particular no `Error`, so the
instance keeps the `Initializing` status it was given — and the run
contains the initialization-taking-long log line. -/
theorem poller_timeout_emits_no_status (live : Nat → LiveRes)
    (ping : Nat → PingRes) (name cid : String)
    (h : ∀ j, 1 ≤ j → j ≤ 120 →
      live j ≠ .exited ∧ ∀ d, ping j ≠ .online d) :
    (poll_mc_server_ready live ping name cid).filter PollEvent.isStatus = [] ∧
    PollEvent.log (timeoutLog name) ∈ poll_mc_server_ready live ping name cid :=
  pollFrom_exhausted live ping name cid 120 1
    (fun j h1 h2 => h j h1 (by omega))

/-- Witness for C4: a container that stays alive while the handshake
never succeeds. -/
theorem poller_timeout_emits_no_status_witness :
    (poll_mc_server_ready (fun _ => .running) (fun _ => .connFail) "wt" "wd").filter
        PollEvent.isStatus = [] ∧
    PollEvent.log (timeoutLog "wt")
        ∈ poll_mc_server_ready (fun _ => .running) (fun _ => .connFail) "wt" "wd" :=
  poller_timeout_emits_no_status (fun _ => .running) (fun _ => .connFail)
    "wt" "wd" (fun _ _ _ => ⟨fun hc => (nomatch hc), fun _ hc => nomatch hc⟩)

/-! ## RCON helper lemmas -/

theorem le32_length (n : Nat) : (le32 n).length = 4 := rfl

theorem dec32_le32 (n : Nat) (h : n < 4294967296) : dec32 (le32 n) = n := by
  simp only [dec32, le32, List.foldr]
  omega

theorem toU32_lt (i : Int) : toU32 i < 4294967296 := by
  unfold toU32
  omega

theorem toU32_coe (n : Nat) (h : n < 4294967296) : toU32 (Int.ofNat n) = n := by
  unfold toU32
  simp only [Int.ofNat_eq_coe]
  omega

theorem toI32_toU32 (i : Int) (h1 : -2147483648 ≤ i) (h2 : i < 2147483648) :
    toI32 (toU32 i) = i := by
  unfold toI32 toU32
  split <;> omega

theorem readExact_append (l1 l2 : List Nat) :
    readExact l1.length (l1 ++ l2) = some (l1, l2) := by
  unfold readExact
  rw [if_pos (by simp), List.take_left, List.drop_left]

theorem readExact_append' {n : Nat} (l1 l2 : List Nat) (h : l1.length = n) :
    readExact n (l1 ++ l2) = some (l1, l2) := by
  subst h
  exact readExact_append l1 l2

theorem readExact_exact {n : Nat} (l : List Nat) (h : l.length = n) :
    readExact n l = some (l, []) := by
  subst h
  unfold readExact
  rw [if_pos le_rfl, List.take_length, List.drop_length]

deriving instance DecidableEq for Except

/-! ## Claim C1 -/

/-- C1 counterexample: in the command exchange a well-formed reply frame
whose request id is `-1` is *not* surfaced as an authentication failure;
`command` returns its payload (here the single byte `x`). -/
theorem command_ignores_neg1_counterexample :
    command_recv (send_packet (-1) 0 [120]) = .ok ([120], []) ∧
      (Except.ok ([120], []) : Except RconError (List Nat × List Nat))
        ≠ .error .AuthFailed := by
  decide

/-- C1 (amended): in the authentication exchange every reply frame whose
request id is `-1` — whether it is the first reply or the second reply
read after skipping an initial type-0 reply — yields the
authentication-failure error regardless of its declared packet type, and
its payload is not returned; in the command exchange, however, the reply
id is ignored and the payload is returned even when the id is `-1`. -/
theorem auth_neg1_always_fails (input : List Nat) :
    (∀ ty p rest, receive_packet input = .ok ((-1, ty, p), rest) →
        authenticate_recv input = .error .AuthFailed) ∧
    (∀ id1 p1 rest ty2 p2 rest2, id1 ≠ -1 →
        receive_packet input = .ok ((id1, 0, p1), rest) →
        receive_packet rest = .ok ((-1, ty2, p2), rest2) →
        authenticate_recv input = .error .AuthFailed) ∧
    (∀ id ty p rest, receive_packet input = .ok ((id, ty, p), rest) →
        command_recv input = .ok (p, rest)) := by
  refine ⟨?_, ?_, ?_⟩
  · intro ty p rest h
    unfold authenticate_recv
    rw [h]
    simp
  · intro id1 p1 rest ty2 p2 rest2 hne h1 h2
    unfold authenticate_recv
    rw [h1]
    simp only [hne, if_false, SERVERDATA_RESPONSE_VALUE, if_pos rfl]
    rw [h2]
    simp
  · intro id ty p rest h
    unfold command_recv
    rw [h]

/-- Witness for C1: a concrete authentication reply with id `-1` and
packet type 3 fails authentication. -/
theorem auth_neg1_always_fails_witness :
    authenticate_recv (send_packet (-1) 3 [120]) = .error .AuthFailed :=
  (auth_neg1_always_fails (send_packet (-1) 3 [120])).1 3 [120] []
    (by decide)

/-! ## Claim C2 -/

/-- C2 counterexample: the payload consisting of two null bytes (an
ASCII string of length 2 ≤ 4086) round-trips to the empty payload —
*both* trailing nulls are stripped by `trim_end_matches`, so the result
differs from the original payload even after allowing a single trailing
null to be removed. -/
theorem roundtrip_strips_all_trailing_nulls_counterexample :
    receive_packet (send_packet 1 2 [0, 0])
        = .ok ((1, 2, ([] : List Nat)), []) ∧
      ([] : List Nat) ≠ [0, 0] ∧ ([] : List Nat) ++ [0] ≠ [0, 0] := by
  decide

/-- C2 (amended): encoding an ASCII payload of length at most 4086 with
`send_packet` and decoding the frame with `receive_packet` succeeds and
yields the payload with *all* trailing null bytes removed (hence exactly
the original payload whenever it does not end in a null, and the
original minus one null when it ends in exactly one). -/
theorem rcon_roundtrip (request_id packet_type : Int) (payload : List Nat)
    (hid1 : -2147483648 ≤ request_id) (hid2 : request_id < 2147483648)
    (hty1 : -2147483648 ≤ packet_type) (hty2 : packet_type < 2147483648)
    (_hascii : ∀ b ∈ payload, b < 128) (hlen : payload.length ≤ 4086) :
    receive_packet (send_packet request_id packet_type payload)
      = .ok ((request_id, packet_type, dropTrailingZeros payload), []) := by
  have hsend : send_packet request_id packet_type payload
      = le32 (toU32 (Int.ofNat (payload.length + 10))) ++
          (le32 (toU32 request_id) ++
            (le32 (toU32 packet_type) ++ (payload ++ [0, 0]))) := by
    unfold send_packet
    have h10 : 4 + 4 + payload.length + 1 + 1 = payload.length + 10 := by omega
    rw [h10]
    simp [List.append_assoc]
  have e1 : readExact 4 (send_packet request_id packet_type payload)
      = some (le32 (toU32 (Int.ofNat (payload.length + 10))),
          le32 (toU32 request_id) ++
            (le32 (toU32 packet_type) ++ (payload ++ [0, 0]))) := by
    rw [hsend]
    exact readExact_append' _ _ rfl
  have e2 : dec32 (le32 (toU32 (Int.ofNat (payload.length + 10))))
      = payload.length + 10 := by
    rw [dec32_le32 _ (toU32_lt _), toU32_coe _ (by omega)]
  have e3 : i32AsUsize (payload.length + 10) = payload.length + 10 := by
    unfold i32AsUsize
    rw [if_pos (by omega)]
  have e4 : readExact (payload.length + 10)
      (le32 (toU32 request_id) ++
        (le32 (toU32 packet_type) ++ (payload ++ [0, 0])))
      = some (le32 (toU32 request_id) ++
          (le32 (toU32 packet_type) ++ (payload ++ [0, 0])), []) := by
    apply readExact_exact
    simp only [List.length_append, le32_length, List.length_cons,
      List.length_nil]
    omega
  have e5 : (le32 (toU32 request_id) ++
        (le32 (toU32 packet_type) ++ (payload ++ [0, 0]))).take 4
      = le32 (toU32 request_id) := List.take_left' rfl
  have e6 : (le32 (toU32 request_id) ++
        (le32 (toU32 packet_type) ++ (payload ++ [0, 0]))).drop 4
      = le32 (toU32 packet_type) ++ (payload ++ [0, 0]) := List.drop_left' rfl
  have e7 : (le32 (toU32 packet_type) ++ (payload ++ [0, 0])).take 4
      = le32 (toU32 packet_type) := List.take_left' rfl
  have e8 : (le32 (toU32 request_id) ++
        (le32 (toU32 packet_type) ++ (payload ++ [0, 0]))).drop 8
      = payload ++ [0, 0] := by
    have h48 : (8 : Nat) = 4 + 4 := rfl
    rw [h48, ← List.drop_drop, e6]
    exact List.drop_left' rfl
  have e9 : (payload ++ [0, 0]).take (payload.length + 10 - 10) = payload := by
    have h : payload.length + 10 - 10 = payload.length := by omega
    rw [h]
    exact List.take_left _ _
  have e10 : toI32 (dec32 (le32 (toU32 request_id))) = request_id := by
    rw [dec32_le32 _ (toU32_lt _)]
    exact toI32_toU32 _ hid1 hid2
  have e11 : toI32 (dec32 (le32 (toU32 packet_type))) = packet_type := by
    rw [dec32_le32 _ (toU32_lt _)]
    exact toI32_toU32 _ hty1 hty2
  unfold receive_packet
  rw [e1]
  simp only [e2, e3]
  rw [if_neg (by omega), if_neg (by omega), e4]
  simp only [e5, e6, e7, e8, e9, e10, e11]

/-- Witness for C2 at the payload `hi` (bytes 104, 105), request id 1,
type 2. -/
theorem rcon_roundtrip_witness :
    receive_packet (send_packet 1 2 [104, 105])
      = .ok ((1, 2, dropTrailingZeros [104, 105]), []) :=
  rcon_roundtrip 1 2 [104, 105] (by decide) (by decide) (by decide)
    (by decide) (by decide) (by decide)

/-! ## Claim C8 -/

/-- C8: a received frame whose declared length (the `i32` length field
cast to `usize`) is below 10 or above 4096 is rejected as an
`InvalidResponse` protocol error whose result does not depend on any
byte beyond the 4-byte length field — no body byte is read; for every
declared length in `[10, 4096]` with enough bytes available the client
reads exactly that many body bytes, leaving precisely the remainder of
the stream. -/
theorem receive_length_validation (raw : Nat) (hraw : raw < 4294967296) :
    (i32AsUsize raw < 10 ∨ 4096 < i32AsUsize raw →
      ∃ msg, ∀ rest : List Nat,
        receive_packet (le32 raw ++ rest) = .error (.InvalidResponse msg)) ∧
    (10 ≤ i32AsUsize raw → i32AsUsize raw ≤ 4096 →
      ∀ rest : List Nat, i32AsUsize raw ≤ rest.length →
        ∃ out, receive_packet (le32 raw ++ rest)
          = .ok (out, rest.drop (i32AsUsize raw))) := by
  constructor
  · intro hbad
    by_cases hsmall : i32AsUsize raw < 10
    · refine ⟨s!"Packet too small: {i32AsUsize raw}", fun rest => ?_⟩
      unfold receive_packet
      have e1 : readExact 4 (le32 raw ++ rest) = some (le32 raw, rest) :=
        readExact_append' _ _ rfl
      rw [e1]
      simp only [dec32_le32 _ hraw]
      rw [if_pos hsmall]
    · have hlarge : 4096 < i32AsUsize raw := by
        rcases hbad with h | h
        · omega
        · exact h
      refine ⟨s!"Packet too large: {i32AsUsize raw}", fun rest => ?_⟩
      unfold receive_packet
      have e1 : readExact 4 (le32 raw ++ rest) = some (le32 raw, rest) :=
        readExact_append' _ _ rfl
      rw [e1]
      simp only [dec32_le32 _ hraw]
      rw [if_neg (by omega), if_pos hlarge]
  · intro h10 h4096 rest hrest
    unfold receive_packet
    have e1 : readExact 4 (le32 raw ++ rest) = some (le32 raw, rest) :=
      readExact_append' _ _ rfl
    rw [e1]
    simp only [dec32_le32 _ hraw]
    rw [if_neg (by omega), if_neg (by omega)]
    unfold readExact
    rw [if_pos hrest]
    exact ⟨_, rfl⟩

/-- Witness for C8: declared length 9 and declared length 4097 are both
rejected whatever follows the length field; declared length 10 with a
10-byte body is accepted and consumes exactly those 10 bytes. -/
theorem receive_length_validation_witness :
    (∃ msg, ∀ rest : List Nat,
      receive_packet (le32 9 ++ rest) = .error (.InvalidResponse msg)) ∧
    (∃ msg, ∀ rest : List Nat,
      receive_packet (le32 4097 ++ rest) = .error (.InvalidResponse msg)) ∧
    (∃ out, receive_packet (le32 10 ++ [0, 0, 0, 0, 0, 0, 0, 0, 0, 0])
      = .ok (out, List.drop (i32AsUsize 10) [0, 0, 0, 0, 0, 0, 0, 0, 0, 0])) :=
  ⟨(receive_length_validation 9 (by decide)).1 (Or.inl (by decide)),
   (receive_length_validation 4097 (by decide)).1 (Or.inr (by decide)),
   (receive_length_validation 10 (by decide)).2 (by decide) (by decide)
     [0, 0, 0, 0, 0, 0, 0, 0, 0, 0] (by decide)⟩

end Drakonix
